import Mathlib

/-!
Shallow embedding of the crypto-news enrichment pipeline in `src/ci.py`
(class `CryptoNewsProcessor`) and its driver `main`.

Modelling conventions:
* A Python call to `requests.get`/`requests.post` is modelled by a value of
  `ReqResult β`: either a transport failure (the call raised a
  `requests` exception) or a response carrying an HTTP status code and the
  parsed JSON body of interest.
* Python exceptions propagating out of a function are modelled with
  `Except String`; a function that cannot raise returns a plain value.
* A JSON field that may be absent is an `Option`; `dict.get(k, default)`
  is `Option.getD`, while `dict[k]` on a possibly absent field is a
  lookup in `Except` that errors like Python's `KeyError`.
* External-service calls (OpenAI chat completions, image generation, file
  writes) are passed in as explicit outcome parameters, since their results
  are environment inputs to the control flow under verification.
-/

namespace CryptoNews

/-- Outcome of one `requests.get`/`requests.post` call: either the library
raised (transport failure: DNS, refused connection, timeout, ...) or a
response object with a status code and a parsed body came back. -/
inductive ReqResult (β : Type) where
  | transportError (msg : String)
  | response (status : Nat) (body : β)
deriving Repr, DecidableEq

/-- One element of CoinGecko's `data` array, as consumed by the pipeline
(fields `title`, `description`, `url`, `news_site`). -/
structure CoinGeckoItem where
  title : String
  description : String
  url : String
  news_site : String
deriving Repr, DecidableEq

/-- One element of CryptoPanic's `results` array, as consumed by the pipeline
(fields `title`, `domain`, `url`, `kind`). The `kind` field may be absent
from the JSON object, hence `Option`. -/
structure CryptoPanicItem where
  title : String
  domain : String
  url : String
  kind : Option String
deriving Repr, DecidableEq

/-- Embeds `get_coingecko_news` (src/ci.py:29-36).
The body parameter is the parsed JSON of the response: `none` when the
object has no `"data"` key (Python `.get("data", [])` then yields `[]`).
`response.status_code == 200` keeps the first 10 items; any other status
returns `[]`. There is no `try/except` in the source, so a transport
failure from `requests.get` propagates: it is `Except.error` here. -/
def get_coingecko_news (resp : ReqResult (Option (List CoinGeckoItem))) :
    Except String (List CoinGeckoItem) :=
  match resp with
  | ReqResult.transportError e => Except.error e
  | ReqResult.response status body =>
    if status = 200 then Except.ok ((body.getD []).take 10)
    else Except.ok []

/-- Python `news["kind"]` (src/ci.py:49): subscripting a dict raises
`KeyError` when the key is absent. -/
def kindField (news : CryptoPanicItem) : Except String String :=
  match news.kind with
  | some k => Except.ok k
  | none => Except.error "KeyError: kind"

/-- The list comprehension of src/ci.py:48-49:
`[news for news in results if news["kind"] == "news"]`.
Each element's `kind` is subscripted; a missing key aborts the whole
comprehension with `KeyError`. -/
def filterNewsKind : List CryptoPanicItem → Except String (List CryptoPanicItem)
  | [] => Except.ok []
  | news :: rest =>
    match kindField news with
    | Except.error e => Except.error e
    | Except.ok k =>
      match filterNewsKind rest with
      | Except.error e => Except.error e
      | Except.ok tail =>
        if k = "news" then Except.ok (news :: tail) else Except.ok tail

/-- Embeds `get_cryptopanic_news` (src/ci.py:38-50).
The body parameter is the parsed JSON: `none` when there is no `"results"`
key (`.get("results", [])` yields `[]`). On a 200 response the `"news"`-kind
comprehension runs; any other status returns `[]`; a transport failure
from `requests.get` propagates (no `try/except` in the source). -/
def get_cryptopanic_news (resp : ReqResult (Option (List CryptoPanicItem))) :
    Except String (List CryptoPanicItem) :=
  match resp with
  | ReqResult.transportError e => Except.error e
  | ReqResult.response status body =>
    if status = 200 then filterNewsKind (body.getD [])
    else Except.ok []

/-- Embeds the `sentiment_mapping.get(sentiment, sentiment)` lookup of
src/ci.py:76-80: the dict maps `"Very Bullish" ↦ "VeryBullish"` and
`"Very Bearish" ↦ "VeryBearish"`; `.get` with the key itself as default
passes any other string through unchanged. -/
def sentiment_mapping_get (sentiment : String) : String :=
  if sentiment = "Very Bullish" then "VeryBullish"
  else if sentiment = "Very Bearish" then "VeryBearish"
  else sentiment

/-- Embeds `get_sentiment_and_summary` (src/ci.py:52-85).
`summaryCall` and `sentimentCall` are the outcomes of the two
`client.chat.completions.create` calls including extraction and `.strip()`
of the message content (`Except.error` covers timeout, transport failure
and malformed response alike — any exception in the `try` block).
The whole body is wrapped in `try/except Exception`, so every failure
yields the fallback pair `("Error generating summary", "Neutral")`;
the summary call runs first, so its failure means the sentiment call
never happens. -/
def get_sentiment_and_summary (summaryCall sentimentCall : Except String String) :
    String × String :=
  match summaryCall with
  | Except.error _ => ("Error generating summary", "Neutral")
  | Except.ok five_word_summary =>
    match sentimentCall with
    | Except.error _ => ("Error generating summary", "Neutral")
    | Except.ok sentiment =>
      (five_word_summary, sentiment_mapping_get sentiment)

/-- Embeds `generate_and_save_image` (src/ci.py:87-135).
Environment inputs: `models_list` is the outcome of `client.models.list()`;
`gen_dalle3` / `gen_dalle2` are the outcomes of the two
`client.images.generate` calls including `response.data[0].url` extraction
(`Except.ok` carries the image URL); `download` maps the URL to the
`requests.get` outcome; `write_file` is the outcome of
`os.makedirs` + `open` + `copyfileobj`. Control flow of the source: an
outer `try/except Exception` returns `""`; an inner `try/except` falls
back from model `dall-e-3` to model `dall-e-2`; a download with a non-200
status logs and returns `""`; success returns `save_path`. -/
def generate_and_save_image (save_path : String)
    (models_list : Except String Unit)
    (gen_dalle3 gen_dalle2 : Except String String)
    (download : String → ReqResult Unit)
    (write_file : Except String Unit) : String :=
  match models_list with
  | Except.error _ => ""
  | Except.ok _ =>
    match (match gen_dalle3 with
           | Except.ok url => Except.ok url
           | Except.error _ => gen_dalle2) with
    | Except.error _ => ""
    | Except.ok image_url =>
      match download image_url with
      | ReqResult.transportError _ => ""
      | ReqResult.response status _ =>
        if status = 200 then
          match write_file with
          | Except.ok _ => save_path
          | Except.error _ => ""
        else ""

/-- The sequence of model identifiers `generate_and_save_image` passes to
`client.images.generate`, in request order, read off the same control flow:
nothing if `client.models.list()` already raised; `dall-e-3` alone if the
first generation call returns; `dall-e-3` then `dall-e-2` if it raises
(src/ci.py:97-112). -/
def attempted_models (models_list : Except String Unit)
    (gen_dalle3 : Except String String) : List String :=
  match models_list with
  | Except.error _ => []
  | Except.ok _ =>
    match gen_dalle3 with
    | Except.ok _ => ["dall-e-3"]
    | Except.error _ => ["dall-e-3", "dall-e-2"]

/-- One record of the `predictions` sequence, with the fields authored in
src/ci.py:197-205 and 228-236 (id, title, preview, fullContent, image,
sourcelink, sentiment). `id` is an `Int`, matching Python's unbounded int. -/
structure NewsEntry where
  id : Int
  title : String
  preview : String
  fullContent : String
  image : String
  sourcelink : String
  sentiment : String
deriving Repr, DecidableEq

/-- The YAML document: a top-level `predictions` key holding the record
sequence. -/
structure PredData where
  predictions : List NewsEntry
deriving Repr, DecidableEq

/-- State of the `predictions.yaml` file for the (symbol, date) key:
absent, or present with the outcome of `open` + `yaml.safe_load`
(`Except.error` when opening or parsing raises; `Except.ok none` when
`safe_load` returns a falsy value, e.g. an empty file). -/
inductive YamlFile where
  | absent
  | present (read : Except String (Option PredData))
deriving Repr

/-- Embeds the load step of `process_news` (src/ci.py:169-176):
if the file exists, `yaml.safe_load(f) or {"predictions": []}`; else the
empty collection. No `try/except` guards the `open`/`safe_load`, so a
read or parse failure propagates. -/
def loadPredictions : YamlFile → Except String PredData
  | YamlFile.absent => Except.ok ⟨[]⟩
  | YamlFile.present read =>
    match read with
    | Except.error e => Except.error e
    | Except.ok parsed => Except.ok (parsed.getD ⟨[]⟩)

/-- Python `max(list_of_ids, default=0)` (src/ci.py:173): the maximum of a
non-empty list, `0` for the empty list. -/
def pyMax : List Int → Int
  | [] => 0
  | x :: xs => xs.foldl max x

/-- The per-item image path convention
`news/<token>-USDT/<date>/<id>/chart.png` (src/ci.py:193, 202, 224, 233);
`os.path.join(base_dir, str(id), "chart.png")` and the f-string produce
the same string. -/
def mkImagePath (token current_date : String) (id : Int) : String :=
  "news/" ++ token ++ "-USDT/" ++ current_date ++ "/" ++ toString id ++ "/chart.png"

/-- Loop body for one CoinGecko item (src/ci.py:180-207): increment
`current_id`, enrich via `get_sentiment_and_summary(title, description)`,
call `generate_and_save_image` with its return value DISCARDED, and append
the authored record. State is `(current_id, predictions so far)`. -/
def coingecko_step (token current_date : String)
    (summaryCall sentimentCall : String → String → Except String String)
    (illustrate : String → String → String)
    (st : Int × List NewsEntry) (news : CoinGeckoItem) : Int × List NewsEntry :=
  let current_id := st.1 + 1
  let ss := get_sentiment_and_summary
    (summaryCall news.title news.description)
    (sentimentCall news.title news.description)
  let image_path := mkImagePath token current_date current_id
  let _ := illustrate news.title image_path
  let news_entry : NewsEntry :=
    { id := current_id
      title := news.news_site ++ " - " ++ ss.2
      preview := ss.1
      fullContent := news.description
      image := image_path
      sourcelink := news.url
      sentiment := ss.2 }
  (current_id, st.2 ++ [news_entry])

/-- Loop body for one CryptoPanic item (src/ci.py:211-238): same shape, but
the title doubles as the description, the source label is `domain`, and
`fullContent` is the title. -/
def cryptopanic_step (token current_date : String)
    (summaryCall sentimentCall : String → String → Except String String)
    (illustrate : String → String → String)
    (st : Int × List NewsEntry) (news : CryptoPanicItem) : Int × List NewsEntry :=
  let current_id := st.1 + 1
  let ss := get_sentiment_and_summary
    (summaryCall news.title news.title)
    (sentimentCall news.title news.title)
  let image_path := mkImagePath token current_date current_id
  let _ := illustrate news.title image_path
  let news_entry : NewsEntry :=
    { id := current_id
      title := news.domain ++ " - " ++ ss.2
      preview := ss.1
      fullContent := news.title
      image := image_path
      sourcelink := news.url
      sentiment := ss.2 }
  (current_id, st.2 ++ [news_entry])

/-- Embeds `process_news` (src/ci.py:160-242): load (or initialize) the
collection, set `current_id` to the max existing id (`default=0`), loop over
the CoinGecko items, then fetch and loop over the CryptoPanic items, and
write the collection back. The returned `PredData` is the document written
by `yaml.dump`; `Except.error` means an exception escaped before the write
(the fetchers are the only calls in the body that can raise). -/
def process_news (token current_date : String) (fileState : YamlFile)
    (cgResp : ReqResult (Option (List CoinGeckoItem)))
    (cpResp : ReqResult (Option (List CryptoPanicItem)))
    (summaryCall sentimentCall : String → String → Except String String)
    (illustrate : String → String → String) : Except String PredData :=
  match loadPredictions fileState with
  | Except.error e => Except.error e
  | Except.ok data =>
    let current_id := pyMax (data.predictions.map NewsEntry.id)
    match get_coingecko_news cgResp with
    | Except.error e => Except.error e
    | Except.ok coingecko_news =>
      let st1 := coingecko_news.foldl
        (coingecko_step token current_date summaryCall sentimentCall illustrate)
        (current_id, data.predictions)
      match get_cryptopanic_news cpResp with
      | Except.error e => Except.error e
      | Except.ok cryptopanic_news =>
        let st2 := cryptopanic_news.foldl
          (cryptopanic_step token current_date summaryCall sentimentCall illustrate)
          st1
        Except.ok ⟨st2.2⟩

/-- The fixed in-code symbol list of `main` (src/ci.py:249). -/
def mainTokens : List String := ["BTC"]

/-- Embeds the loop of `main` (src/ci.py:249-254): for each token, run the
pipeline inside `try/except Exception`, printing a success or error line
either way. The driver itself never raises (it returns a plain list of the
printed lines), and recursion on the token list continues past a failing
token. `process` abstracts `processor.process_news`, so "any unhandled
exception" is any `Except.error` it may return. -/
def run_main (process : String → Except String PredData) :
    List String → List String
  | [] => []
  | token :: rest =>
    (match process token with
     | Except.ok _ => "Successfully processed news for " ++ token
     | Except.error e => "Error processing " ++ token ++ " news: " ++ e)
    :: run_main process rest

/-- The id values handed to `n` consecutive new records when the loop
enters with counter value `c`: `c+1, c+2, ..., c+n` (the `current_id += 1`
of src/ci.py:181 and src/ci.py:212). -/
def newIds (c : Int) (n : Nat) : List Int :=
  (List.range n).map (fun (i : Nat) => c + 1 + (i : Int))

/-- A CoinGecko response body with twelve identical items, used to exercise
the first-10 truncation on a concrete input. -/
def cgTwelve : List CoinGeckoItem :=
  List.replicate 12 ⟨"BTC hits new high", "Price surged", "https://x/a", "siteA"⟩

/-- A CryptoPanic response body mixing a `"news"`-kind and a `"media"`-kind
item, both with the `kind` field present. -/
def cpSample : List CryptoPanicItem :=
  [⟨"BTC hits new high", "dom1", "https://x/1", some "news"⟩,
   ⟨"BTC video recap", "dom2", "https://x/2", some "media"⟩]

/-- A pipeline stand-in whose run fails on "BTC" and succeeds elsewhere,
used to exercise the driver's catch-and-continue on a concrete input. -/
def failingOnBTC : String → Except String PredData :=
  fun token => if token = "BTC" then Except.error "boom" else Except.ok ⟨[]⟩

/-- The record produced by a first run over one CoinGecko item
`{title: "T1", description: "D1", url: "u1", news_site: "site1"}` with the
generation service returning summary "S" and sentiment "Bullish". -/
def sampleEntry : NewsEntry :=
  { id := 1
    title := "site1 - Bullish"
    preview := "S"
    fullContent := "D1"
    image := "news/BTC-USDT/01012025/1/chart.png"
    sourcelink := "u1"
    sentiment := "Bullish" }

/-- The single CoinGecko item backing `sampleEntry`. -/
def sampleCgItem : CoinGeckoItem := ⟨"T1", "D1", "u1", "site1"⟩

end CryptoNews

namespace CryptoNews

/-- C2 counterexample: with no `try/except` in `get_coingecko_news` or
`get_cryptopanic_news`, a transport failure from `requests.get` propagates
to the caller instead of yielding the empty sequence the claim asserts. -/
theorem C2_counterexample :
    get_coingecko_news (ReqResult.transportError "ConnectionError")
      = Except.error "ConnectionError"
    ∧ get_cryptopanic_news (ReqResult.transportError "ConnectionError")
      = Except.error "ConnectionError" :=
  ⟨rfl, rfl⟩

/-- C2 (amended): each news-fetch operation returns the empty sequence on
every non-success HTTP response; only a transport failure (a raised
`requests` exception) propagates to the caller. -/
theorem C2_fetchers_empty_on_non_success
    (status : Nat) (h : status ≠ 200)
    (cgBody : Option (List CoinGeckoItem)) (cpBody : Option (List CryptoPanicItem)) :
    get_coingecko_news (ReqResult.response status cgBody) = Except.ok []
    ∧ get_cryptopanic_news (ReqResult.response status cpBody) = Except.ok [] := by
  constructor <;> simp [get_coingecko_news, get_cryptopanic_news, h]

/-- Witness for C2 at status 404. -/
theorem C2_fetchers_empty_on_non_success_witness :
    get_coingecko_news (ReqResult.response 404 (some cgTwelve)) = Except.ok []
    ∧ get_cryptopanic_news (ReqResult.response 404 (some cpSample)) = Except.ok [] :=
  C2_fetchers_empty_on_non_success 404 (by decide) (some cgTwelve) (some cpSample)

/-- C3: whenever either generation call of `get_sentiment_and_summary`
fails, the function returns exactly the fallback pair
`("Error generating summary", "Neutral")`; it is a total function, so no
error ever propagates to the caller. -/
theorem C3_enrichment_fallback
    (summaryCall sentimentCall : Except String String)
    (h : (∃ e, summaryCall = Except.error e) ∨ (∃ e, sentimentCall = Except.error e)) :
    get_sentiment_and_summary summaryCall sentimentCall
      = ("Error generating summary", "Neutral") := by
  rcases h with ⟨e, he⟩ | ⟨e, he⟩
  · subst he; rfl
  · cases summaryCall with
    | error _ => rfl
    | ok s => subst he; rfl

/-- Witness for C3: a timeout in either call yields the fallback pair. -/
theorem C3_enrichment_fallback_witness :
    get_sentiment_and_summary (Except.error "APITimeoutError") (Except.ok "Bullish")
      = ("Error generating summary", "Neutral")
    ∧ get_sentiment_and_summary (Except.ok "Market is up today") (Except.error "APITimeoutError")
      = ("Error generating summary", "Neutral") :=
  ⟨C3_enrichment_fallback _ _ (Or.inl ⟨"APITimeoutError", rfl⟩),
   C3_enrichment_fallback _ _ (Or.inr ⟨"APITimeoutError", rfl⟩)⟩

/-- C4: the canonicalization inside `get_sentiment_and_summary` maps
"Very Bullish" to "VeryBullish" and "Very Bearish" to "VeryBearish", and
passes every other raw label through unchanged (no coercion to Neutral). -/
theorem C4_sentiment_canonicalization (five_word_summary s : String) :
    get_sentiment_and_summary (Except.ok five_word_summary) (Except.ok "Very Bullish")
      = (five_word_summary, "VeryBullish")
    ∧ get_sentiment_and_summary (Except.ok five_word_summary) (Except.ok "Very Bearish")
      = (five_word_summary, "VeryBearish")
    ∧ (s ≠ "Very Bullish" → s ≠ "Very Bearish" →
        get_sentiment_and_summary (Except.ok five_word_summary) (Except.ok s)
          = (five_word_summary, s)) := by
  refine ⟨rfl, rfl, fun h1 h2 => ?_⟩
  simp [get_sentiment_and_summary, sentiment_mapping_get, h1, h2]

/-- Witness for C4: a recognized single-word label and an unrecognized
label both pass through unchanged. -/
theorem C4_sentiment_canonicalization_witness :
    get_sentiment_and_summary (Except.ok "BTC price surged to high") (Except.ok "Bullish")
      = ("BTC price surged to high", "Bullish")
    ∧ get_sentiment_and_summary (Except.ok "BTC price surged to high") (Except.ok "Mildly Optimistic")
      = ("BTC price surged to high", "Mildly Optimistic") :=
  ⟨(C4_sentiment_canonicalization "BTC price surged to high" "Bullish").2.2
      (by decide) (by decide),
   (C4_sentiment_canonicalization "BTC price surged to high" "Mildly Optimistic").2.2
      (by decide) (by decide)⟩

/-- C6 counterexample: an existing but unreadable/unparsable file makes the
load step raise (no `try/except` around `open`/`yaml.safe_load`), not
return an empty collection. -/
theorem C6_counterexample :
    loadPredictions (YamlFile.present (Except.error "yaml.YAMLError"))
      = Except.error "yaml.YAMLError" :=
  rfl

/-- C6 (amended): loading yields the empty collection when no prior file
exists or the existing file parses to a falsy value (e.g. it is empty); an
unreadable or malformed file raises instead. -/
theorem C6_load_empty_on_absent_or_empty (e : String) :
    loadPredictions YamlFile.absent = Except.ok ⟨[]⟩
    ∧ loadPredictions (YamlFile.present (Except.ok none)) = Except.ok ⟨[]⟩
    ∧ loadPredictions (YamlFile.present (Except.error e)) = Except.error e :=
  ⟨rfl, rfl, rfl⟩

/-- C7 counterexample: a 200 response whose single result lacks the `kind`
field makes `get_cryptopanic_news` raise `KeyError` (Python `news["kind"]`),
instead of returning the filtered list the claim asserts. -/
theorem C7_counterexample :
    get_cryptopanic_news
      (ReqResult.response 200 (some [⟨"t", "dom", "u", none⟩]))
      = Except.error "KeyError: kind" :=
  rfl

/-- Helper: when every result carries a `kind` field, the comprehension of
src/ci.py:48-49 is an ordinary filter on `kind == "news"`. -/
theorem filterNewsKind_eq_filter (l : List CryptoPanicItem)
    (h : ∀ n ∈ l, (CryptoPanicItem.kind n).isSome = true) :
    filterNewsKind l
      = Except.ok (l.filter (fun n => decide (n.kind = some "news"))) := by
  induction l with
  | nil => rfl
  | cons n rest ih =>
    obtain ⟨k, hk⟩ := Option.isSome_iff_exists.mp (h n (List.mem_cons_self n rest))
    have hrest := ih (fun m hm => h m (List.mem_cons_of_mem n hm))
    by_cases hknews : k = "news"
    · subst hknews
      simp [filterNewsKind, kindField, hk, hrest, List.filter_cons]
    · simp [filterNewsKind, kindField, hk, hrest, List.filter_cons, hknews]

/-- C7 (amended): on a successful provider-B response all of whose entries
carry a `kind` field, `get_cryptopanic_news` returns exactly the entries
whose `kind` equals "news"; an entry with the field absent instead aborts
the call with `KeyError`. -/
theorem C7_cryptopanic_filters_news
    (body : Option (List CryptoPanicItem))
    (h : ∀ n ∈ body.getD [], (CryptoPanicItem.kind n).isSome = true) :
    get_cryptopanic_news (ReqResult.response 200 body)
      = Except.ok ((body.getD []).filter (fun n => decide (n.kind = some "news"))) := by
  simp only [get_cryptopanic_news, if_pos rfl]
  exact filterNewsKind_eq_filter (body.getD []) h

/-- Witness for C7: the mixed sample keeps only the `"news"`-kind entry. -/
theorem C7_cryptopanic_filters_news_witness :
    get_cryptopanic_news (ReqResult.response 200 (some cpSample))
      = Except.ok (cpSample.filter (fun n => decide (n.kind = some "news")))
    ∧ cpSample.filter (fun n => decide (n.kind = some "news"))
      = [⟨"BTC hits new high", "dom1", "https://x/1", some "news"⟩] :=
  ⟨C7_cryptopanic_filters_news (some cpSample) (by decide), by decide⟩

/-- C5: `generate_and_save_image` requests `dall-e-3` first whenever it
reaches the generation step; on a primary failure it retries exactly once
with `dall-e-2`; and on every failure path (both generations failing, a
transport failure or non-200 status while downloading, a file-write
failure, or the preceding `models.list` call failing) it returns the empty
string — it is a total function, so it never raises. -/
theorem C5_image_primary_then_secondary
    (save_path : String) (gen_dalle2 : Except String String)
    (download : String → ReqResult Unit) (write_file : Except String Unit)
    (url e3 e2 em ew t : String) (status : Nat) :
    attempted_models (Except.ok ()) (Except.ok url) = ["dall-e-3"]
    ∧ attempted_models (Except.ok ()) (Except.error e3) = ["dall-e-3", "dall-e-2"]
    ∧ attempted_models (Except.error em) (Except.ok url) = []
    ∧ generate_and_save_image save_path (Except.ok ()) (Except.error e3)
        (Except.error e2) download write_file = ""
    ∧ generate_and_save_image save_path (Except.error em) (Except.ok url)
        gen_dalle2 download write_file = ""
    ∧ generate_and_save_image save_path (Except.ok ()) (Except.ok url)
        gen_dalle2 (fun _ => ReqResult.transportError t) write_file = ""
    ∧ (status ≠ 200 →
        generate_and_save_image save_path (Except.ok ()) (Except.ok url)
          gen_dalle2 (fun _ => ReqResult.response status ()) write_file = "")
    ∧ generate_and_save_image save_path (Except.ok ()) (Except.ok url)
        gen_dalle2 (fun _ => ReqResult.response 200 ()) (Except.error ew) = ""
    ∧ generate_and_save_image save_path (Except.ok ()) (Except.ok url)
        gen_dalle2 (fun _ => ReqResult.response 200 ()) (Except.ok ()) = save_path
    ∧ (∀ (ml : Except String Unit) (g3 : Except String String),
        generate_and_save_image save_path ml g3 gen_dalle2 download write_file = ""
        ∨ generate_and_save_image save_path ml g3 gen_dalle2 download write_file
            = save_path) := by
  refine ⟨rfl, rfl, rfl, rfl, rfl, rfl, fun h => ?_, rfl, rfl, fun ml g3 => ?_⟩
  · simp [generate_and_save_image, h]
  · unfold generate_and_save_image
    repeat' first
      | exact Or.inl rfl
      | exact Or.inr rfl
      | split

/-- Witness for C5: non-200 download status and the totality disjunction
at concrete inputs. -/
theorem C5_image_primary_then_secondary_witness :
    (attempted_models (Except.ok ()) (Except.ok "https://img/1") = ["dall-e-3"]
    ∧ attempted_models (Except.ok ()) (Except.error "BadRequestError")
        = ["dall-e-3", "dall-e-2"]
    ∧ attempted_models (Except.error "AuthenticationError") (Except.ok "https://img/1") = []
    ∧ generate_and_save_image "news/BTC-USDT/01012025/1/chart.png" (Except.ok ())
        (Except.error "BadRequestError") (Except.error "BadRequestError")
        (fun _ => ReqResult.response 200 ()) (Except.ok ()) = ""
    ∧ generate_and_save_image "news/BTC-USDT/01012025/1/chart.png"
        (Except.error "AuthenticationError") (Except.ok "https://img/1")
        (Except.ok "https://img/2") (fun _ => ReqResult.response 200 ())
        (Except.ok ()) = ""
    ∧ generate_and_save_image "news/BTC-USDT/01012025/1/chart.png" (Except.ok ())
        (Except.ok "https://img/1") (Except.ok "https://img/2")
        (fun _ => ReqResult.transportError "ConnectionError") (Except.ok ()) = ""
    ∧ ((404 : Nat) ≠ 200 →
        generate_and_save_image "news/BTC-USDT/01012025/1/chart.png" (Except.ok ())
          (Except.ok "https://img/1") (Except.ok "https://img/2")
          (fun _ => ReqResult.response 404 ()) (Except.ok ()) = "")
    ∧ generate_and_save_image "news/BTC-USDT/01012025/1/chart.png" (Except.ok ())
        (Except.ok "https://img/1") (Except.ok "https://img/2")
        (fun _ => ReqResult.response 200 ()) (Except.error "PermissionError") = ""
    ∧ generate_and_save_image "news/BTC-USDT/01012025/1/chart.png" (Except.ok ())
        (Except.ok "https://img/1") (Except.ok "https://img/2")
        (fun _ => ReqResult.response 200 ()) (Except.ok ())
        = "news/BTC-USDT/01012025/1/chart.png"
    ∧ (∀ (ml : Except String Unit) (g3 : Except String String),
        generate_and_save_image "news/BTC-USDT/01012025/1/chart.png" ml g3
          (Except.ok "https://img/2") (fun _ => ReqResult.response 200 ())
          (Except.ok ()) = ""
        ∨ generate_and_save_image "news/BTC-USDT/01012025/1/chart.png" ml g3
            (Except.ok "https://img/2") (fun _ => ReqResult.response 200 ())
            (Except.ok ()) = "news/BTC-USDT/01012025/1/chart.png"))
    ∧ generate_and_save_image "news/BTC-USDT/01012025/1/chart.png" (Except.ok ())
        (Except.ok "https://img/1") (Except.ok "https://img/2")
        (fun _ => ReqResult.response 404 ()) (Except.ok ()) = "" := by
  have h := C5_image_primary_then_secondary "news/BTC-USDT/01012025/1/chart.png"
    (Except.ok "https://img/2") (fun _ => ReqResult.response 200 ()) (Except.ok ())
    "https://img/1" "BadRequestError" "BadRequestError" "AuthenticationError"
    "PermissionError" "ConnectionError" 404
  have h404 := (C5_image_primary_then_secondary "news/BTC-USDT/01012025/1/chart.png"
    (Except.ok "https://img/2") (fun _ => ReqResult.response 200 ()) (Except.ok ())
    "https://img/1" "BadRequestError" "BadRequestError" "AuthenticationError"
    "PermissionError" "ConnectionError" 404).2.2.2.2.2.2.1 (by decide)
  exact ⟨h, h404⟩

/-- C8: the driver loop of `main` emits one line per configured symbol
whatever the outcomes, and a failing symbol contributes an error line while
the loop continues with the remaining symbols unchanged. -/
theorem C8_driver_isolates_failures
    (process : String → Except String PredData) (tokens : List String)
    (token e : String) (rest : List String)
    (hfail : process token = Except.error e) :
    (run_main process tokens).length = tokens.length
    ∧ run_main process (token :: rest)
        = ("Error processing " ++ token ++ " news: " ++ e) :: run_main process rest := by
  constructor
  · induction tokens with
    | nil => rfl
    | cons t ts ih => simp [run_main, ih]
  · simp [run_main, hfail]

/-- Witness for C8: the failure on "BTC" is caught and "ETH" is still
processed. -/
theorem C8_driver_isolates_failures_witness :
    (run_main failingOnBTC ["BTC", "ETH"]).length = (["BTC", "ETH"] : List String).length
    ∧ run_main failingOnBTC ("BTC" :: ["ETH"])
        = ("Error processing " ++ "BTC" ++ " news: " ++ "boom")
            :: run_main failingOnBTC ["ETH"] :=
  C8_driver_isolates_failures failingOnBTC ["BTC", "ETH"] "BTC" "boom" ["ETH"] (by rfl)

/-- Helper: the seed of a left max-fold bounds it from below. -/
theorem le_foldl_max (l : List Int) : ∀ a : Int, a ≤ l.foldl max a := by
  induction l with
  | nil => intro a; exact le_refl a
  | cons b t ih => intro a; exact le_trans (le_max_left a b) (ih (max a b))

/-- Helper: every member of a list bounds its left max-fold from below. -/
theorem mem_le_foldl_max (l : List Int) : ∀ a x : Int, x ∈ l → x ≤ l.foldl max a := by
  induction l with
  | nil => intro a x hx; cases hx
  | cons b t ih =>
    intro a x hx
    rcases List.mem_cons.mp hx with h | h
    · subst h; exact le_trans (le_max_right a x) (le_foldl_max t (max a x))
    · exact ih (max a b) x h

/-- Helper: `pyMax` dominates every element, matching Python's `max`. -/
theorem le_pyMax (l : List Int) (x : Int) (hx : x ∈ l) : x ≤ pyMax l := by
  cases l with
  | nil => cases hx
  | cons b t =>
    rcases List.mem_cons.mp hx with h | h
    · subst h; exact le_foldl_max t x
    · exact mem_le_foldl_max t b x h

/-- Helper: `pyMax` of a list of positive ids is nonnegative (it is `0`
exactly on the empty list, by `default=0`). -/
theorem pyMax_nonneg (l : List Int) (h : ∀ x ∈ l, 1 ≤ x) : 0 ≤ pyMax l := by
  cases l with
  | nil => exact le_refl 0
  | cons b t =>
    have hb : 1 ≤ b := h b (List.mem_cons_self b t)
    exact le_trans (by linarith) (le_foldl_max t b)

/-- Helper: `pyMax` of a non-empty list of positive ids is at least 1. -/
theorem one_le_pyMax (l : List Int) (hne : l ≠ []) (h : ∀ x ∈ l, 1 ≤ x) :
    1 ≤ pyMax l := by
  cases l with
  | nil => exact absurd rfl hne
  | cons b t => exact le_trans (h b (List.mem_cons_self b t)) (le_foldl_max t b)

/-- Helper: peeling the first assigned id off a block of `n + 1`. -/
theorem newIds_succ (c : Int) (n : Nat) :
    newIds c (n + 1) = (c + 1) :: newIds (c + 1) n := by
  unfold newIds
  rw [List.range_succ_eq_map, List.map_cons, List.map_map]
  have h0 : c + 1 + ((0 : Nat) : Int) = c + 1 := by push_cast; ring
  rw [h0]
  congr 1
  refine List.map_congr_left fun i _ => ?_
  simp only [Function.comp_apply, Nat.succ_eq_add_one]
  push_cast
  ring

/-- Helper: two consecutive blocks of assigned ids concatenate. -/
theorem newIds_append (c : Int) (m n : Nat) :
    newIds c (m + n) = newIds c m ++ newIds (c + m) n := by
  unfold newIds
  rw [List.range_add, List.map_append, List.map_map]
  congr 1
  refine List.map_congr_left fun i _ => ?_
  simp only [Function.comp_apply]
  push_cast
  ring

/-- Helper: a block of assigned ids is strictly increasing. -/
theorem newIds_chain (c : Int) (n : Nat) : List.Chain' (· < ·) (newIds c n) := by
  unfold newIds
  rw [List.chain'_map]
  refine List.Pairwise.chain' ?_
  refine (List.pairwise_lt_range n).imp ?_
  intro a b hab
  have hab' : (a : Int) < (b : Int) := by exact_mod_cast hab
  linarith

/-- Helper: every assigned id in a block exceeds the entering counter. -/
theorem newIds_mem_lb (c : Int) (n : Nat) (x : Int) (hx : x ∈ newIds c n) :
    c + 1 ≤ x := by
  unfold newIds at hx
  obtain ⟨i, _, rfl⟩ := List.mem_map.mp hx
  have : (0 : Int) ≤ (i : Int) := Int.ofNat_nonneg i
  linarith

/-- Helper: the per-item loops of `process_news` only ever increment the
counter and append one record carrying the fresh id and the conventional
image path; this characterizes the whole `foldl`. -/
theorem foldl_step_spec {α : Type}
    (step : (Int × List NewsEntry) → α → (Int × List NewsEntry))
    (token current_date : String)
    (hstep : ∀ st a, ∃ e : NewsEntry,
      step st a = (st.1 + 1, st.2 ++ [e])
      ∧ e.id = st.1 + 1 ∧ e.image = mkImagePath token current_date (st.1 + 1)) :
    ∀ (items : List α) (c : Int) (recs : List NewsEntry),
      ∃ new : List NewsEntry,
        items.foldl step (c, recs) = (c + (items.length : Int), recs ++ new)
        ∧ new.length = items.length
        ∧ new.map NewsEntry.id = newIds c new.length
        ∧ ∀ e ∈ new, e.image = mkImagePath token current_date e.id := by
  intro items
  induction items with
  | nil =>
    intro c recs
    exact ⟨[], by simp, rfl, by simp [newIds], by simp⟩
  | cons a rest ih =>
    intro c recs
    obtain ⟨e, hse, hid, himg⟩ := hstep (c, recs) a
    obtain ⟨new, hfold, hlen, hids, himgs⟩ := ih (c + 1) (recs ++ [e])
    refine ⟨e :: new, ?_, by simp [hlen], ?_, ?_⟩
    · rw [List.foldl_cons, hse, hfold]
      refine Prod.ext ?_ ?_
      · simp only [List.length_cons]
        push_cast
        ring
      · simp
    · simp only [List.map_cons, hid, hids, List.length_cons, hlen]
      rw [newIds_succ]
    · intro x hx
      rcases List.mem_cons.mp hx with h | h
      · subst h; rw [himg, hid]
      · exact himgs x h

/-- Helper: the CoinGecko loop body satisfies the step contract. -/
theorem coingecko_step_spec (token current_date : String)
    (summaryCall sentimentCall : String → String → Except String String)
    (illustrate : String → String → String) :
    ∀ (st : Int × List NewsEntry) (a : CoinGeckoItem), ∃ e : NewsEntry,
      coingecko_step token current_date summaryCall sentimentCall illustrate st a
        = (st.1 + 1, st.2 ++ [e])
      ∧ e.id = st.1 + 1 ∧ e.image = mkImagePath token current_date (st.1 + 1) :=
  fun _ _ => ⟨_, rfl, rfl, rfl⟩

/-- Helper: the CryptoPanic loop body satisfies the step contract. -/
theorem cryptopanic_step_spec (token current_date : String)
    (summaryCall sentimentCall : String → String → Except String String)
    (illustrate : String → String → String) :
    ∀ (st : Int × List NewsEntry) (a : CryptoPanicItem), ∃ e : NewsEntry,
      cryptopanic_step token current_date summaryCall sentimentCall illustrate st a
        = (st.1 + 1, st.2 ++ [e])
      ∧ e.id = st.1 + 1 ∧ e.image = mkImagePath token current_date (st.1 + 1) :=
  fun _ _ => ⟨_, rfl, rfl, rfl⟩

/-- Helper: a successful `process_news` run extends the loaded collection
with a block of new records whose ids are `max+1, max+2, ...` and whose
image fields follow the per-item path convention. -/
theorem process_news_ok_spec
    (token current_date : String) (fileState : YamlFile)
    (cgResp : ReqResult (Option (List CoinGeckoItem)))
    (cpResp : ReqResult (Option (List CryptoPanicItem)))
    (summaryCall sentimentCall : String → String → Except String String)
    (illustrate : String → String → String)
    (d0 d : PredData)
    (hload : loadPredictions fileState = Except.ok d0)
    (hrun : process_news token current_date fileState cgResp cpResp
      summaryCall sentimentCall illustrate = Except.ok d) :
    ∃ new : List NewsEntry,
      d.predictions = d0.predictions ++ new
      ∧ new.map NewsEntry.id = newIds (pyMax (d0.predictions.map NewsEntry.id)) new.length
      ∧ ∀ e ∈ new, e.image = mkImagePath token current_date e.id := by
  unfold process_news at hrun
  rw [hload] at hrun
  cases hcg : get_coingecko_news cgResp with
  | error e => rw [hcg] at hrun; cases hrun
  | ok cg =>
    rw [hcg] at hrun
    cases hcp : get_cryptopanic_news cpResp with
    | error e => rw [hcp] at hrun; cases hrun
    | ok cp =>
      rw [hcp] at hrun
      simp only [Except.ok.injEq] at hrun
      obtain ⟨new1, hfold1, hlen1, hids1, himgs1⟩ :=
        foldl_step_spec _ token current_date
          (coingecko_step_spec token current_date summaryCall sentimentCall illustrate)
          cg (pyMax (d0.predictions.map NewsEntry.id)) d0.predictions
      obtain ⟨new2, hfold2, hlen2, hids2, himgs2⟩ :=
        foldl_step_spec _ token current_date
          (cryptopanic_step_spec token current_date summaryCall sentimentCall illustrate)
          cp (pyMax (d0.predictions.map NewsEntry.id) + (cg.length : Int))
          (d0.predictions ++ new1)
      rw [hfold1, hfold2] at hrun
      refine ⟨new1 ++ new2, ?_, ?_, ?_⟩
      · rw [← hrun, List.append_assoc]
      · rw [List.map_append, hids1, hids2, List.length_append, hlen1, hlen2,
          newIds_append]
      · intro e he
        rcases List.mem_append.mp he with h | h
        · exact himgs1 e h
        · exact himgs2 e h

/-- C10: `get_coingecko_news` keeps exactly the first 10 entries of the
`data` array on a 200 response, and never returns more than 10 items on
any input. -/
theorem C10_coingecko_first_ten
    (body : Option (List CoinGeckoItem)) :
    get_coingecko_news (ReqResult.response 200 body)
      = Except.ok ((body.getD []).take 10)
    ∧ (∀ (resp : ReqResult (Option (List CoinGeckoItem))) (l : List CoinGeckoItem),
        get_coingecko_news resp = Except.ok l → l.length ≤ 10) := by
  refine ⟨by simp [get_coingecko_news], ?_⟩
  intro resp l hl
  cases resp with
  | transportError e => cases hl
  | response status b =>
    by_cases hs : status = 200
    · subst hs
      rw [show get_coingecko_news (ReqResult.response 200 b)
            = Except.ok ((b.getD []).take 10) from rfl] at hl
      injection hl with hl
      subst hl
      simp [List.length_take]
    · simp only [get_coingecko_news, if_neg hs, Except.ok.injEq] at hl
      subst hl
      simp

/-- Witness for C10: twelve available items are truncated to ten. -/
theorem C10_coingecko_first_ten_witness :
    get_coingecko_news (ReqResult.response 200 (some cgTwelve))
      = Except.ok (cgTwelve.take 10)
    ∧ (cgTwelve.take 10).length ≤ 10 :=
  ⟨(C10_coingecko_first_ten (some cgTwelve)).1,
   (C10_coingecko_first_ten (some cgTwelve)).2 (ReqResult.response 200 (some cgTwelve))
     (cgTwelve.take 10) (C10_coingecko_first_ten (some cgTwelve)).1⟩

/-- C1: starting from a loaded collection with positive, strictly
increasing ids, a successful `process_news` run (a) keeps the ids strictly
increasing, unique and positive, (b) appends records whose ids continue
from the maximum existing id plus 1 (so from 1 when the collection is
empty, since `max(..., default=0) = 0`), and (c) a re-run on the same key
over the saved file continues from the new maximum and assigns no id equal
to 1 while the file is non-empty. -/
theorem C1_id_assignment
    (token current_date : String) (fileState : YamlFile)
    (cgResp : ReqResult (Option (List CoinGeckoItem)))
    (cpResp : ReqResult (Option (List CryptoPanicItem)))
    (summaryCall sentimentCall : String → String → Except String String)
    (illustrate : String → String → String)
    (d0 d : PredData)
    (hload : loadPredictions fileState = Except.ok d0)
    (hpos : ∀ e ∈ d0.predictions, 1 ≤ e.id)
    (hinc : List.Chain' (· < ·) (d0.predictions.map NewsEntry.id))
    (hrun : process_news token current_date fileState cgResp cpResp
      summaryCall sentimentCall illustrate = Except.ok d) :
    (List.Chain' (· < ·) (d.predictions.map NewsEntry.id)
      ∧ (d.predictions.map NewsEntry.id).Nodup
      ∧ ∀ e ∈ d.predictions, 1 ≤ e.id)
    ∧ (∃ new : List NewsEntry,
        d.predictions = d0.predictions ++ new
        ∧ new.map NewsEntry.id
            = newIds (pyMax (d0.predictions.map NewsEntry.id)) new.length)
    ∧ (d0.predictions = [] →
        d.predictions.map NewsEntry.id = newIds 0 d.predictions.length)
    ∧ (∀ (cgResp2 : ReqResult (Option (List CoinGeckoItem)))
        (cpResp2 : ReqResult (Option (List CryptoPanicItem)))
        (summaryCall2 sentimentCall2 : String → String → Except String String)
        (illustrate2 : String → String → String) (d2 : PredData),
        process_news token current_date (YamlFile.present (Except.ok (some d)))
          cgResp2 cpResp2 summaryCall2 sentimentCall2 illustrate2 = Except.ok d2 →
        ∃ new2 : List NewsEntry,
          d2.predictions = d.predictions ++ new2
          ∧ new2.map NewsEntry.id
              = newIds (pyMax (d.predictions.map NewsEntry.id)) new2.length
          ∧ (d.predictions ≠ [] → ∀ x ∈ new2.map NewsEntry.id, 2 ≤ x)) := by
  obtain ⟨new, hpred, hids, _⟩ :=
    process_news_ok_spec token current_date fileState cgResp cpResp
      summaryCall sentimentCall illustrate d0 d hload hrun
  have hposids : ∀ x ∈ d0.predictions.map NewsEntry.id, 1 ≤ x := by
    intro x hx
    obtain ⟨e, he, rfl⟩ := List.mem_map.mp hx
    exact hpos e he
  have hc0 : 0 ≤ pyMax (d0.predictions.map NewsEntry.id) := pyMax_nonneg _ hposids
  have hmap : d.predictions.map NewsEntry.id
      = d0.predictions.map NewsEntry.id ++ new.map NewsEntry.id := by
    rw [hpred, List.map_append]
  have hchain : List.Chain' (· < ·) (d.predictions.map NewsEntry.id) := by
    rw [hmap, List.chain'_append]
    refine ⟨hinc, by rw [hids]; exact newIds_chain _ new.length, ?_⟩
    intro x hx y hy
    have hx' : x ≤ pyMax (d0.predictions.map NewsEntry.id) :=
      le_pyMax _ x (List.mem_of_mem_getLast? hx)
    have hymem : y ∈ new.map NewsEntry.id := List.mem_of_mem_head? hy
    rw [hids] at hymem
    have hy' := newIds_mem_lb _ new.length y hymem
    linarith
  have hposd : ∀ e ∈ d.predictions, 1 ≤ e.id := by
    intro e he
    rw [hpred] at he
    rcases List.mem_append.mp he with h | h
    · exact hpos e h
    · have hmem : e.id ∈ new.map NewsEntry.id := List.mem_map_of_mem _ h
      rw [hids] at hmem
      have := newIds_mem_lb _ new.length e.id hmem
      linarith
  refine ⟨⟨hchain, ?_, hposd⟩, ⟨new, hpred, hids⟩, ?_, ?_⟩
  · exact (List.chain'_iff_pairwise.mp hchain).imp (fun h => ne_of_lt h)
  · intro h0
    have hz : pyMax (d0.predictions.map NewsEntry.id) = 0 := by rw [h0]; rfl
    have hlen : new.length = d.predictions.length := by
      rw [hpred, h0, List.nil_append]
    rw [hmap, h0, List.map_nil, List.nil_append, hids, hz, hlen]
  · intro cgResp2 cpResp2 summaryCall2 sentimentCall2 illustrate2 d2 hrun2
    obtain ⟨new2, hpred2, hids2, _⟩ :=
      process_news_ok_spec token current_date (YamlFile.present (Except.ok (some d)))
        cgResp2 cpResp2 summaryCall2 sentimentCall2 illustrate2 d d2 rfl hrun2
    refine ⟨new2, hpred2, hids2, ?_⟩
    intro hne x hx
    have h1 : 1 ≤ pyMax (d.predictions.map NewsEntry.id) := by
      refine one_le_pyMax _ ?_ ?_
      · intro hmn
        exact hne (List.map_eq_nil_iff.mp hmn)
      · intro x hx
        obtain ⟨e, he, rfl⟩ := List.mem_map.mp hx
        exact hposd e he
    rw [hids2] at hx
    have := newIds_mem_lb _ new2.length x hx
    linarith

/-- Witness for C1: first run on an absent file over one CoinGecko item
assigns id 1; the conclusion's re-run clause is obtained at the saved
collection. -/
theorem C1_id_assignment_witness :
    (List.Chain' (· < ·) ((⟨[sampleEntry]⟩ : PredData).predictions.map NewsEntry.id)
      ∧ ((⟨[sampleEntry]⟩ : PredData).predictions.map NewsEntry.id).Nodup
      ∧ ∀ e ∈ (⟨[sampleEntry]⟩ : PredData).predictions, 1 ≤ e.id)
    ∧ (∃ new : List NewsEntry,
        (⟨[sampleEntry]⟩ : PredData).predictions
          = (⟨[]⟩ : PredData).predictions ++ new
        ∧ new.map NewsEntry.id
            = newIds (pyMax ((⟨[]⟩ : PredData).predictions.map NewsEntry.id)) new.length)
    ∧ ((⟨[]⟩ : PredData).predictions = [] →
        (⟨[sampleEntry]⟩ : PredData).predictions.map NewsEntry.id
          = newIds 0 (⟨[sampleEntry]⟩ : PredData).predictions.length)
    ∧ (∀ (cgResp2 : ReqResult (Option (List CoinGeckoItem)))
        (cpResp2 : ReqResult (Option (List CryptoPanicItem)))
        (summaryCall2 sentimentCall2 : String → String → Except String String)
        (illustrate2 : String → String → String) (d2 : PredData),
        process_news "BTC" "01012025"
          (YamlFile.present (Except.ok (some ⟨[sampleEntry]⟩)))
          cgResp2 cpResp2 summaryCall2 sentimentCall2 illustrate2 = Except.ok d2 →
        ∃ new2 : List NewsEntry,
          d2.predictions = (⟨[sampleEntry]⟩ : PredData).predictions ++ new2
          ∧ new2.map NewsEntry.id
              = newIds (pyMax ((⟨[sampleEntry]⟩ : PredData).predictions.map NewsEntry.id))
                  new2.length
          ∧ ((⟨[sampleEntry]⟩ : PredData).predictions ≠ [] →
              ∀ x ∈ new2.map NewsEntry.id, 2 ≤ x)) :=
  C1_id_assignment "BTC" "01012025" YamlFile.absent
    (ReqResult.response 200 (some [sampleCgItem]))
    (ReqResult.response 404 none)
    (fun _ _ => Except.ok "S") (fun _ _ => Except.ok "Bullish")
    (fun _ _ => "") ⟨[]⟩ ⟨[sampleEntry]⟩
    (by rfl) (by simp) (by simp) (by rfl)

/-- C9: the record written for each processed item carries the
conventional image path `news/<SYMBOL>-USDT/<date>/<id>/chart.png` keyed by
its own id, and the outcome of `generate_and_save_image` is discarded: the
saved collection is identical under any illustrator behavior, so a failed
illustration still yields a record pointing at a path that may hold no
file. -/
theorem C9_image_path_discarded
    (token current_date : String) (fileState : YamlFile)
    (cgResp : ReqResult (Option (List CoinGeckoItem)))
    (cpResp : ReqResult (Option (List CryptoPanicItem)))
    (summaryCall sentimentCall : String → String → Except String String)
    (illustrate illustrate2 : String → String → String)
    (d0 d : PredData)
    (hload : loadPredictions fileState = Except.ok d0)
    (hrun : process_news token current_date fileState cgResp cpResp
      summaryCall sentimentCall illustrate = Except.ok d) :
    process_news token current_date fileState cgResp cpResp
      summaryCall sentimentCall illustrate2 = Except.ok d
    ∧ ∀ e ∈ d.predictions.drop d0.predictions.length,
        e.image = mkImagePath token current_date e.id := by
  have hindep : process_news token current_date fileState cgResp cpResp
      summaryCall sentimentCall illustrate2
      = process_news token current_date fileState cgResp cpResp
        summaryCall sentimentCall illustrate := rfl
  refine ⟨hindep.trans hrun, ?_⟩
  obtain ⟨new, hpred, _, himgs⟩ :=
    process_news_ok_spec token current_date fileState cgResp cpResp
      summaryCall sentimentCall illustrate d0 d hload hrun
  intro e he
  rw [hpred, List.drop_left] at he
  exact himgs e he

/-- Witness for C9: the run that produced `sampleEntry` gives the same
collection when the illustrator fails outright, and the entry's image field
follows the path convention. -/
theorem C9_image_path_discarded_witness :
    process_news "BTC" "01012025" YamlFile.absent
      (ReqResult.response 200 (some [sampleCgItem]))
      (ReqResult.response 404 none)
      (fun _ _ => Except.ok "S") (fun _ _ => Except.ok "Bullish")
      (fun _ _ => "unused result") = Except.ok ⟨[sampleEntry]⟩
    ∧ ∀ e ∈ (⟨[sampleEntry]⟩ : PredData).predictions.drop
        (⟨[]⟩ : PredData).predictions.length,
        e.image = mkImagePath "BTC" "01012025" e.id :=
  C9_image_path_discarded "BTC" "01012025" YamlFile.absent
    (ReqResult.response 200 (some [sampleCgItem]))
    (ReqResult.response 404 none)
    (fun _ _ => Except.ok "S") (fun _ _ => Except.ok "Bullish")
    (fun _ _ => "") (fun _ _ => "unused result") ⟨[]⟩ ⟨[sampleEntry]⟩
    (by rfl) (by rfl)

end CryptoNews
